import Mathlib

/-!
Verification of the fitquest workout core (backend/app/api/workout.py,
backend/app/utils/workout_helpers.py, backend/app/schemas/workout.py).

Modelling conventions:
- Python floats are modelled as elements of a linear ordered field with a
  floor function; the helper functions are stated generically and
  instantiated at the rationals where concrete evaluation is needed and at
  the reals where the haversine distance (which uses transcendental
  functions) flows into the pipeline.
- Python int() truncation toward zero is pyInt; round(x, n) half-to-even
  rounding on exact values is pyRound.
- Firestore documents are modelled as records with optional fields;
  dictionary get with a default is Option.getD.  create_time_info keeps
  only the timestamp field of the produced dictionary (the only one the
  code reads back) but does model the exceptions of datetime and timezone
  construction; the route elevation loop models the TypeError raised by
  comparing stored None altitudes.
- HTTPException outcomes are modelled with Except; the Python exceptions
  that the blanket handler of finish_workout converts into an HTTP 500
  are the PyError type.
-/

/-- Python int() on a float: truncation toward zero. -/
def pyInt {α : Type} [LinearOrderedField α] [FloorRing α] (x : α) : ℤ :=
  if 0 ≤ x then ⌊x⌋ else ⌈x⌉

/-- Python round-half-to-even of an exact value to an integer. -/
def pyRoundInt {α : Type} [LinearOrderedField α] [FloorRing α] (x : α) : ℤ :=
  let f := ⌊x⌋
  if x - (f : α) < 1 / 2 then f
  else if (1 : α) / 2 < x - (f : α) then f + 1
  else if f % 2 = 0 then f else f + 1

/-- Python round(x, n) on an exact value. -/
def pyRound {α : Type} [LinearOrderedField α] [FloorRing α] (n : ℕ) (x : α) : α :=
  (pyRoundInt (x * (10 : α) ^ n) : α) / (10 : α) ^ n

/-- Python float modulo (sign follows the divisor), used by duration formatting. -/
def pyFloatMod {α : Type} [LinearOrderedField α] [FloorRing α] (x y : α) : α :=
  x - y * (⌊x / y⌋ : α)

/-- The intensity label very_high. -/
def intensityVeryHigh : String := "very_high"

/-- The intensity label high. -/
def intensityHigh : String := "high"

/-- The intensity label moderate. -/
def intensityModerate : String := "moderate"

/-- The intensity label low. -/
def intensityLow : String := "low"

/-- The session status string finished. -/
def stFinished : String := "finished"

/-- The session status string active. -/
def stActive : String := "active"

/-- Result schema of calculate_distance_info (schemas/workout.py DistanceInfo). -/
structure DistanceInfo (α : Type) where
  meters : α
  kilometers : α
  miles : α
  deriving DecidableEq

/-- Result schema of calculate_duration_info (schemas/workout.py DurationInfo). -/
structure DurationInfo (α : Type) where
  seconds : α
  minutes : α
  formatted : String
  deriving DecidableEq

/-- Result schema of calculate_pace_info (schemas/workout.py PaceInfo). -/
structure PaceInfo (α : Type) where
  min_per_km : α
  min_per_mile : α
  km_per_hour : α
  mph : α
  deriving DecidableEq

/-- Result schema of calculate_calories_burned (schemas/workout.py CalorieInfo). -/
structure CalorieInfo (α : Type) where
  burned : α
  estimated : Bool
  formula : String
  user_weight : α
  deriving DecidableEq

/-- The zones dictionary built by analyze_workout_intensity. -/
structure Zones where
  warmup : ℤ
  active : ℤ
  cooldown : ℤ
  deriving DecidableEq

/-- Result schema of analyze_workout_intensity (schemas/workout.py WorkoutAnalysis). -/
structure WorkoutAnalysis (α : Type) where
  intensity : String
  effort_level : ℤ
  zones : Zones
  pace_consistency : Option α
  deriving DecidableEq

/-- Result schema of calculate_route_info (schemas/workout.py RouteInfo). -/
structure RouteInfo (α : Type) where
  points_count : ℤ
  total_elevation_gain : α
  total_elevation_loss : α
  elevation_profile : List α
  deriving DecidableEq

section MetricsHelpers

variable {α : Type} [LinearOrderedField α] [FloorRing α]

/-- workout_helpers.calculate_distance_info. -/
def calculate_distance_info (meters : α) : DistanceInfo α :=
  { meters := pyRound 2 meters
    kilometers := pyRound 3 (meters / 1000)
    miles := pyRound 3 (meters / 1609.34) }

/-- workout_helpers.calculate_duration_info. -/
def calculate_duration_info (seconds : α) : DurationInfo α :=
  let minutes := seconds / 60
  let hours := minutes / 60
  let formatted :=
    if 1 ≤ hours then
      toString (pyInt hours) ++ "h " ++ toString (pyInt (pyFloatMod minutes 60)) ++ "m"
    else
      toString (pyInt minutes) ++ "m " ++ toString (pyInt (pyFloatMod seconds 60)) ++ "s"
  { seconds := pyRound 2 seconds
    minutes := pyRound 2 minutes
    formatted := formatted }

/-- The min_per_km value computed by calculate_pace_info in the positive branch. -/
def paceMinPerKm (distance_m duration_s : α) : α :=
  (duration_s / 60) / (distance_m / 1000)

/-- The min_per_mile value computed by calculate_pace_info in the positive branch. -/
def paceMinPerMile (distance_m duration_s : α) : α :=
  (duration_s / 60) / (distance_m / 1609.34)

/-- The km_per_hour value computed by calculate_pace_info in the positive branch. -/
def paceKmPerHour (distance_m duration_s : α) : α :=
  (distance_m / 1000) / (duration_s / 3600)

/-- The mph value computed by calculate_pace_info in the positive branch. -/
def paceMph (distance_m duration_s : α) : α :=
  (distance_m / 1609.34) / (duration_s / 3600)

/-- workout_helpers.calculate_pace_info. -/
def calculate_pace_info (distance_m duration_s : α) : PaceInfo α :=
  if distance_m ≤ 0 ∨ duration_s ≤ 0 then
    { min_per_km := 0, min_per_mile := 0, km_per_hour := 0, mph := 0 }
  else
    { min_per_km := pyRound 2 (paceMinPerKm distance_m duration_s)
      min_per_mile := pyRound 2 (paceMinPerMile distance_m duration_s)
      km_per_hour := pyRound 2 (paceKmPerHour distance_m duration_s)
      mph := pyRound 2 (paceMph distance_m duration_s) }

/-- The pace factor step function of calculate_calories_burned
(workout_helpers.py lines 124-138), including the defaulting of a missing
or non-positive pace to the slow value 8.0. -/
def pace_factor (pace_min_per_km : Option α) : α :=
  let p : α :=
    match pace_min_per_km with
    | none => 8
    | some v => if v ≤ 0 then 8 else v
  if p < 5 then 1.3
  else if p < 6 then 1.2
  else if p < 7 then 1.1
  else if p < 8 then 1
  else 0.9

/-- The per-workout-type multiplier dictionary of calculate_calories_burned
(workout_helpers.py lines 140-150); dictionary get with default 1.0. -/
def type_factors (workout_type : String) : α :=
  if workout_type = "run" then 1
  else if workout_type = "walk" then 0.6
  else if workout_type = "cycle" then 0.4
  else if workout_type = "swim" then 1.5
  else if workout_type = "gym" then 0.8
  else if workout_type = "other" then 0.7
  else 1

/-- The calories value computed at workout_helpers.py line 152:
distance_km * base_calories_per_km * pace_factor * type_factor, where
base_calories_per_km = user_weight_kg * 1.0. -/
def caloriesValue (distance_km user_weight_kg : α) (workout_type : String)
    (pace_min_per_km : Option α) : α :=
  distance_km * (user_weight_kg * 1) * pace_factor pace_min_per_km *
    type_factors workout_type

/-- workout_helpers.calculate_calories_burned. -/
def calculate_calories_burned (distance_km user_weight_kg : α)
    (workout_type : String) (pace_min_per_km : Option α) : CalorieInfo α :=
  if distance_km ≤ 0 ∨ user_weight_kg ≤ 0 then
    { burned := 0, estimated := true, formula := "distance_based"
      user_weight := user_weight_kg }
  else
    { burned := pyRound 1 (caloriesValue distance_km user_weight_kg workout_type pace_min_per_km)
      estimated := true, formula := "distance_based"
      user_weight := user_weight_kg }

/-- workout_helpers.analyze_workout_intensity; a missing or non-positive
pace defaults to 10.0. -/
def analyze_workout_intensity (pace_min_per_km : Option α) (duration_s : α) :
    WorkoutAnalysis α :=
  let p : α :=
    match pace_min_per_km with
    | none => 10
    | some v => if v ≤ 0 then 10 else v
  let level : String × ℤ :=
    if p < 5 then (intensityVeryHigh, 5)
    else if p < 6 then (intensityHigh, 4)
    else if p < 7 then (intensityModerate, 3)
    else if p < 8 then (intensityLow, 2)
    else (intensityLow, 1)
  { intensity := level.1
    effort_level := level.2
    zones :=
      { warmup := max 60 (pyInt (duration_s * 0.1))
        active := pyInt (duration_s * 0.8)
        cooldown := max 60 (pyInt (duration_s * 0.1)) }
    pace_consistency := some 0.85 }

end MetricsHelpers

/-- A GPS point as stored by add_points (schemas/workout.py LocationPoint);
accuracy, speed and heading are never read by the computations under
verification and are elided. -/
structure StoredPoint where
  lat : ℝ
  lng : ℝ
  t_ms : ℝ
  altitude : Option ℝ

/-- math.radians: degrees to radians. -/
noncomputable def radians (x : ℝ) : ℝ := x * Real.pi / 180

/-- workout.py _haversine_m: haversine distance in meters with Earth
radius 6371000.0. -/
noncomputable def _haversine_m (lat1 lng1 lat2 lng2 : ℝ) : ℝ :=
  let R : ℝ := 6371000.0
  let dlat := radians (lat2 - lat1)
  let dlng := radians (lng2 - lng1)
  let a := Real.sin (dlat / 2) ^ 2 +
    Real.cos (radians lat1) * Real.cos (radians lat2) * Real.sin (dlng / 2) ^ 2
  let c := 2 * Real.arcsin (Real.sqrt a)
  R * c

/-- The sort key comparison used by sorted(pts, key=lambda p: p.get("t_ms", 0)). -/
def tLE (a b : StoredPoint) : Prop := a.t_ms ≤ b.t_ms

noncomputable instance : DecidableRel tLE := fun a b => Real.decidableLE a.t_ms b.t_ms

instance : IsTotal StoredPoint tLE := ⟨fun a b => le_total a.t_ms b.t_ms⟩

instance : IsTrans StoredPoint tLE := ⟨fun _ _ _ h1 h2 => le_trans h1 h2⟩

/-- Python sorted(pts, key=lambda p: p.get("t_ms", 0)): a stable sort
ascending by timestamp, modelled by insertion sort. -/
noncomputable def sortPointsByT (l : List StoredPoint) : List StoredPoint :=
  List.insertionSort tLE l

/-- The accumulation loop of workout.py finish_workout lines 243-246:
total_m starts at 0 and adds the haversine distance of each consecutive
pair of the (already sorted) list. -/
noncomputable def totalDistAux : List StoredPoint → ℝ
  | [] => 0
  | [_] => 0
  | a :: b :: rest => _haversine_m a.lat a.lng b.lat b.lng + totalDistAux (b :: rest)

/-- The total distance computed by finish_workout lines 242-246: sort the
collected points by timestamp, then sum consecutive haversine distances. -/
noncomputable def finishTotalDistance (pts : List StoredPoint) : ℝ :=
  totalDistAux (sortPointsByT pts)

/-- Stated from the spec for comparison (section 4.1 totalDistance): the
sum of distanceMeters over consecutive pairs of the time-sorted sequence. -/
noncomputable def specTotalDistance (pts : List StoredPoint) : ℝ :=
  let s := sortPointsByT pts
  ((s.zip s.tail).map fun ab => _haversine_m ab.1.lat ab.1.lng ab.2.lat ab.2.lng).sum

/-- Python runtime exceptions raised inside the finish pipeline and turned
into an HTTP 500 by the blanket exception handler of finish_workout
(workout.py line 327): the TypeError of comparing a stored None altitude,
and the ValueError/OverflowError/OSError of datetime or timezone
construction for an out-of-range timestamp or offset. -/
inductive PyError
  | typeError
  | rangeError
  deriving DecidableEq

/-- The elevation accumulation loop of workout_helpers.calculate_route_info
lines 216-225, walking consecutive points in order and accumulating
(elevation_gain, elevation_loss, elevation_profile).  Points stored by
add_points always carry the altitude key (pydantic p.dict() serializes a
missing altitude as None), so points[i].get("altitude", 0) returns the
stored None for an altitude-less point, and the comparison
current_alt > previous_alt then raises TypeError (None is not orderable in
Python 3).  The comparison precedes the profile append, so the first pair
with a missing altitude aborts the computation. -/
noncomputable def elevFold : ℝ → ℝ → List ℝ → List StoredPoint →
    Except PyError (ℝ × ℝ × List ℝ)
  | gain, loss, profile, [] => Except.ok (gain, loss, profile)
  | gain, loss, profile, [_] => Except.ok (gain, loss, profile)
  | gain, loss, profile, a :: b :: rest =>
    match a.altitude, b.altitude with
    | some previous_alt, some current_alt =>
      if previous_alt < current_alt then
        elevFold (gain + (current_alt - previous_alt)) loss
          (profile ++ [current_alt]) (b :: rest)
      else
        elevFold gain (loss + (previous_alt - current_alt))
          (profile ++ [current_alt]) (b :: rest)
    | _, _ => Except.error PyError.typeError

/-- workout_helpers.calculate_route_info: raises TypeError (surfacing as an
HTTP 500 from finish_workout) whenever the elevation loop compares a
missing altitude, which happens for every list of at least two stored
points whose altitudes are None. -/
noncomputable def calculate_route_info (points : List StoredPoint) :
    Except PyError (RouteInfo ℝ) :=
  match points with
  | [] => Except.ok { points_count := 0, total_elevation_gain := 0
                      total_elevation_loss := 0, elevation_profile := [] }
  | _ =>
    match elevFold 0 0 [] points with
    | Except.error e => Except.error e
    | Except.ok e =>
      Except.ok { points_count := points.length
                  total_elevation_gain := pyRound 2 e.1
                  total_elevation_loss := pyRound 2 e.2.1
                  elevation_profile := e.2.2 }

/-- The time dictionary produced by workout_helpers.create_time_info as far
as it is ever read back: the code only reads its timestamp key; the
iso/date/time/timezone formatting fields are elided. -/
structure TimeInfo where
  timestamp : Option ℤ
  deriving DecidableEq

/-- Epoch seconds of datetime.min (0001-01-01 00:00:00). -/
def datetimeMinEpochS : ℚ := -62135596800

/-- Epoch seconds of the first instant beyond datetime.max; datetime.max
(9999-12-31 23:59:59.999999) is one microsecond below.  The sub-second
rounding of fromtimestamp at the boundary is idealized to a strict upper
bound. -/
def datetimeMaxEpochS : ℚ := 253402300800

/-- Whether datetime.fromtimestamp(timestamp_ms / 1000, tz) succeeds for a
timezone with the given hour offset: the local clock reading
timestamp + offset must lie within the representable datetime range. -/
def fromtimestampOK (timestamp_ms : ℤ) (offset_hours : ℚ) : Prop :=
  datetimeMinEpochS ≤ (timestamp_ms : ℚ) / 1000 + offset_hours * 3600 ∧
  (timestamp_ms : ℚ) / 1000 + offset_hours * 3600 < datetimeMaxEpochS

instance (t : ℤ) (off : ℚ) : Decidable (fromtimestampOK t off) := by
  unfold fromtimestampOK
  infer_instance

/-- workout_helpers.create_time_info with a timezone_offset_hours argument
(workout_helpers.py lines 9-47), restricted to the timestamp field the
code reads back.  Python raises ValueError from
timezone(timedelta(hours=offset)) unless -24 < offset < 24, and
datetime.fromtimestamp raises for a timestamp outside the datetime range;
through the blanket handler both make the finish request fail with 500.
The timezone_str parameter is never passed by finish_workout and is
elided. -/
def create_time_info (timestamp_ms : ℤ) (timezone_offset_hours : Option ℚ) :
    Except PyError TimeInfo :=
  match timezone_offset_hours with
  | some off =>
    if -24 < off ∧ off < 24 then
      if fromtimestampOK timestamp_ms off then
        Except.ok { timestamp := some timestamp_ms }
      else Except.error PyError.rangeError
    else Except.error PyError.rangeError
  | none =>
    if fromtimestampOK timestamp_ms 0 then
      Except.ok { timestamp := some timestamp_ms }
    else Except.error PyError.rangeError

/-- A workout session Firestore document, with the fields read or written
by the workout endpoints.  The points subcollection is modelled as the
list of its chunk documents in iteration order. -/
structure SessionDoc where
  workout_type : Option String
  status : Option String
  start_time : Option TimeInfo
  start_time_ms : Option ℤ
  end_time_ms : Option ℤ
  points : List (List StoredPoint)
  points_count : Option ℤ
  distance : Option (DistanceInfo ℝ)
  duration : Option (DurationInfo ℝ)
  pace : Option (PaceInfo ℝ)
  calories : Option (CalorieInfo ℝ)
  route : Option (RouteInfo ℝ)
  analysis : Option (WorkoutAnalysis ℝ)
  end_time : Option TimeInfo

/-- The per-user workout collection: session id keyed documents. -/
abbrev SessionStore := List (String × SessionDoc)

/-- Firestore document lookup by id (first match). -/
def lookupSession : SessionStore → String → Option SessionDoc
  | [], _ => none
  | (k, v) :: rest, sid => if k = sid then some v else lookupSession rest sid

/-- Firestore document replacement by id. -/
def setSession : SessionStore → String → SessionDoc → SessionStore
  | [], _, _ => []
  | (k, v) :: rest, sid, d =>
    if k = sid then (k, d) :: setSession rest sid d
    else (k, v) :: setSession rest sid d

/-- schemas/workout.py WorkoutFinishRequest: its only fields are
session_id, end_time_ms and timezone_offset; there is no weight field. -/
structure WorkoutFinishRequest where
  session_id : String
  end_time_ms : ℤ
  timezone_offset : Option ℚ

/-- schemas/workout.py WorkoutAddPointsRequest. -/
structure WorkoutAddPointsRequest where
  session_id : String
  points : List StoredPoint

/-- The HTTPException outcomes raised by the endpoints under verification:
404 session not found, 400 start time missing, 400 start timestamp
missing, and the 500 produced by the blanket exception handler wrapping
any Python exception raised in the finish computation.  Note there is no
invalid-state error. -/
inductive ApiError
  | sessionNotFound
  | startTimeMissing
  | startTimestampMissing
  | internalError
  deriving DecidableEq

/-- schemas/workout.py WorkoutSessionResponse as populated by
finish_workout; created_at and updated_at are elided iso strings. -/
structure WorkoutSessionResponse where
  id : String
  workout_type : String
  status : String
  start_time : TimeInfo
  end_time : Option TimeInfo
  distance : Option (DistanceInfo ℝ)
  duration : Option (DurationInfo ℝ)
  pace : Option (PaceInfo ℝ)
  calories : Option (CalorieInfo ℝ)
  route : Option (RouteInfo ℝ)
  analysis : Option (WorkoutAnalysis ℝ)
  user_id : String

/-- The start-time extraction of finish_workout lines 223-233.  Python
truthiness: a missing value and a zero timestamp are both falsy, so both
raise the corresponding 400 error. -/
def readStartMs (data : SessionDoc) : Except ApiError ℤ :=
  match data.start_time with
  | none =>
    match data.start_time_ms with
    | none => Except.error ApiError.startTimeMissing
    | some v => if v = 0 then Except.error ApiError.startTimeMissing else Except.ok v
  | some ti =>
    match ti.timestamp with
    | none => Except.error ApiError.startTimestampMissing
    | some v => if v = 0 then Except.error ApiError.startTimestampMissing else Except.ok v

/-- The duration computed at finish_workout line 248:
max(0, (end_time_ms - start_ms) / 1000.0). -/
noncomputable def finishDuration (end_time_ms start_ms : ℤ) : ℝ :=
  max 0 (((end_time_ms - start_ms : ℤ) : ℝ) / 1000)

/-- The default workout type used by finish_workout. -/
def wtRun : String := "run"

/-- The pure part of the finish_workout body (workout.py lines 236-315)
once the time dictionaries and the route info have been computed: builds
the metrics, the response and the document update.  The user weight passed
to calculate_calories_burned is the literal 70.0 (line 275). -/
noncomputable def finishParts (uid : String) (data : SessionDoc)
    (req : WorkoutFinishRequest) (start_ms : ℤ)
    (start_time_info end_time_info : TimeInfo) (route_info : RouteInfo ℝ) :
    SessionDoc × WorkoutSessionResponse :=
  let pts := sortPointsByT data.points.flatten
  let total_m := totalDistAux pts
  let duration_s := finishDuration req.end_time_ms start_ms
  let distance_info := calculate_distance_info total_m
  let duration_info := calculate_duration_info duration_s
  let pace_info := calculate_pace_info total_m duration_s
  let pace_min_per_km := if pace_info.min_per_km ≤ 0 then 10.0 else pace_info.min_per_km
  let calories_info :=
    calculate_calories_burned (total_m / 1000) 70.0 (data.workout_type.getD wtRun)
      (some pace_min_per_km)
  let analysis_info := analyze_workout_intensity (some pace_min_per_km) duration_s
  let response : WorkoutSessionResponse :=
    { id := req.session_id
      workout_type := data.workout_type.getD wtRun
      status := "finished"
      start_time := start_time_info
      end_time := some end_time_info
      distance := some distance_info
      duration := some duration_info
      pace := some pace_info
      calories := some calories_info
      route := some route_info
      analysis := some analysis_info
      user_id := uid }
  let updated : SessionDoc :=
    { data with
      end_time_ms := some req.end_time_ms
      status := some stFinished
      start_time := some start_time_info
      end_time := some end_time_info
      distance := some distance_info
      duration := some duration_info
      pace := some pace_info
      calories := some calories_info
      route := some route_info
      analysis := some analysis_info }
  (updated, response)

/-- The body of finish_workout after the session and start time have been
read (workout.py lines 236-315): the start and end time-info construction
and the route computation can each raise (out-of-range timestamp or
timezone offset, missing-altitude comparison), aborting the whole finish;
otherwise the result is finishParts. -/
noncomputable def finishComputation (uid : String) (data : SessionDoc)
    (req : WorkoutFinishRequest) (start_ms : ℤ) :
    Except PyError (SessionDoc × WorkoutSessionResponse) :=
  match create_time_info start_ms req.timezone_offset with
  | Except.error e => Except.error e
  | Except.ok start_time_info =>
    match create_time_info req.end_time_ms req.timezone_offset with
    | Except.error e => Except.error e
    | Except.ok end_time_info =>
      match calculate_route_info (sortPointsByT data.points.flatten) with
      | Except.error e => Except.error e
      | Except.ok route_info =>
        Except.ok (finishParts uid data req start_ms start_time_info
          end_time_info route_info)

/-- workout.py finish_workout: look the session up (404 when absent), read
the start time (400 when missing), then recompute the metrics, mark the
session finished and store the update.  The current status of the session
is never consulted; any Python exception raised inside the computation
(TypeError from a missing-altitude comparison, datetime range error) is
turned into an HTTP 500 by the blanket handler. -/
noncomputable def finish_workout (st : SessionStore) (uid : String)
    (req : WorkoutFinishRequest) :
    Except ApiError (SessionStore × WorkoutSessionResponse) :=
  match lookupSession st req.session_id with
  | none => Except.error ApiError.sessionNotFound
  | some data =>
    match readStartMs data with
    | Except.error e => Except.error e
    | Except.ok start_ms =>
      match finishComputation uid data req start_ms with
      | Except.error _ => Except.error ApiError.internalError
      | Except.ok out => Except.ok (setSession st req.session_id out.1, out.2)

/-- The response dictionary of add_points. -/
structure AddPointsResult where
  ok : Bool
  added : ℕ
  deriving DecidableEq

/-- workout.py add_points: an empty points list returns ok with 0 added
before any store access; otherwise the session must exist (404), the batch
is appended as a new chunk document, and points_count is re-read and
incremented by the batch size.  Legacy string-typed counts (coerced with
int() in the source) are modelled as already-parsed integers. -/
def add_points (st : SessionStore) (req : WorkoutAddPointsRequest) :
    Except ApiError (SessionStore × AddPointsResult) :=
  if req.points.isEmpty then Except.ok (st, { ok := true, added := 0 })
  else
    match lookupSession st req.session_id with
    | none => Except.error ApiError.sessionNotFound
    | some data =>
      let data1 := { data with points := data.points ++ [req.points] }
      let current_count := data1.points_count.getD 0
      let count : ℤ := current_count + (req.points.length : ℤ)
      let data2 := { data1 with points_count := some count }
      Except.ok (setSession st req.session_id data2,
        { ok := true, added := req.points.length })

/-- Modelled from the spec: session status values of the
SessionStateMachine (spec section 4.3); the pause and resume operations of
the repository are not present under src (only the HTTP router declaration
is), so the state machine is modelled from the words of the spec. -/
inductive SMStatus
  | active
  | paused
  | finished
  deriving DecidableEq

/-- Modelled from the spec: the state-machine errors of spec section 7. -/
inductive SMError
  | invalidState
  | corruptState
  deriving DecidableEq

/-- Modelled from the spec: the state-machine view of a session (spec
section 3): status, the pending pause start, and the closed pause
intervals. -/
structure SMSession where
  status : SMStatus
  pendingPauseStart : Option ℤ
  pauses : List (ℤ × ℤ)
  deriving DecidableEq

/-- Modelled from the spec: pause(sessionId, atTime) fails with
InvalidState unless the current status is active; it sets the status to
paused and records the pending pause start. -/
def smPause (s : SMSession) (atTime : ℤ) : Except SMError SMSession :=
  if s.status = SMStatus.active then
    Except.ok { s with status := SMStatus.paused, pendingPauseStart := some atTime }
  else Except.error SMError.invalidState

/-- Modelled from the spec: resume(sessionId, atTime) fails with
InvalidState unless the current status is paused, fails with CorruptState
if the pending pause start is missing, and otherwise appends the pause
interval (clamping a negative duration to zero), clears the pending start
and sets the status back to active. -/
def smResume (s : SMSession) (atTime : ℤ) : Except SMError SMSession :=
  if s.status = SMStatus.paused then
    match s.pendingPauseStart with
    | none => Except.error SMError.corruptState
    | some p =>
      Except.ok { status := SMStatus.active, pendingPauseStart := none
                  pauses := s.pauses ++ [(p, max p atTime)] }
  else Except.error SMError.invalidState

/-- Modelled from the spec: finish(sessionId, endTime) fails with
InvalidState if the session is already finished, and otherwise sets the
status to finished (terminal). -/
def smFinish (s : SMSession) : Except SMError SMSession :=
  if s.status = SMStatus.finished then Except.error SMError.invalidState
  else Except.ok { s with status := SMStatus.finished }

/- Shared helper lemmas. -/

/-- Replacing a document and looking it up again. -/
theorem lookupSession_setSession (st : SessionStore) (sid : String) (d : SessionDoc) :
    lookupSession (setSession st sid d) sid = (lookupSession st sid).map fun _ => d := by
  induction st with
  | nil => rfl
  | cons kv rest ih =>
    obtain ⟨k, v⟩ := kv
    by_cases h : k = sid
    · simp [setSession, lookupSession, h]
    · simp [setSession, lookupSession, h, ih]

/-- A successful start-time read never returns zero. -/
theorem readStartMs_ok_ne_zero (d : SessionDoc) (m : ℤ)
    (h : readStartMs d = Except.ok m) : m ≠ 0 := by
  rcases hst : d.start_time with _ | ti
  · rcases hms : d.start_time_ms with _ | v
    · simp [readStartMs, hst, hms] at h
    · by_cases hz : v = 0
      · simp [readStartMs, hst, hms, hz] at h
      · simp [readStartMs, hst, hms, hz] at h
        omega
  · rcases hts : ti.timestamp with _ | v
    · simp [readStartMs, hst, hts] at h
    · by_cases hz : v = 0
      · simp [readStartMs, hst, hts, hz] at h
      · simp [readStartMs, hst, hts, hz] at h
        omega

/-- Unfolding finish_workout on a successful lookup, start-time read and
finish computation. -/
theorem finish_workout_ok (st : SessionStore) (uid : String)
    (req : WorkoutFinishRequest) (data : SessionDoc) (start_ms : ℤ)
    (out : SessionDoc × WorkoutSessionResponse)
    (hd : lookupSession st req.session_id = some data)
    (hm : readStartMs data = Except.ok start_ms)
    (hc : finishComputation uid data req start_ms = Except.ok out) :
    finish_workout st uid req =
      Except.ok (setSession st req.session_id out.1, out.2) := by
  simp only [finish_workout, hd, hm, hc]

/-- The user_weight field reported by calculate_calories_burned is always
the weight argument it was given. -/
theorem calories_user_weight {α : Type} [LinearOrderedField α] [FloorRing α]
    (d w : α) (ty : String) (p : Option α) :
    (calculate_calories_burned d w ty p).user_weight = w := by
  unfold calculate_calories_burned
  split <;> rfl

/-- Constructing a successful finishComputation from its three fallible
steps. -/
theorem finishComputation_ok_intro (uid : String) (data : SessionDoc)
    (req : WorkoutFinishRequest) (m : ℤ) (sti eti : TimeInfo) (ri : RouteInfo ℝ)
    (h1 : create_time_info m req.timezone_offset = Except.ok sti)
    (h2 : create_time_info req.end_time_ms req.timezone_offset = Except.ok eti)
    (h3 : calculate_route_info (sortPointsByT data.points.flatten) = Except.ok ri) :
    finishComputation uid data req m =
      Except.ok (finishParts uid data req m sti eti ri) := by
  simp only [finishComputation, h1, h2, h3]

/-- A successful finishComputation is finishParts applied to the results
of its three fallible steps. -/
theorem finishComputation_ok_elim (uid : String) (data : SessionDoc)
    (req : WorkoutFinishRequest) (m : ℤ)
    (out : SessionDoc × WorkoutSessionResponse)
    (h : finishComputation uid data req m = Except.ok out) :
    ∃ sti eti ri,
      create_time_info m req.timezone_offset = Except.ok sti ∧
      create_time_info req.end_time_ms req.timezone_offset = Except.ok eti ∧
      calculate_route_info (sortPointsByT data.points.flatten) = Except.ok ri ∧
      out = finishParts uid data req m sti eti ri := by
  cases h1 : create_time_info m req.timezone_offset with
  | error e => simp [finishComputation, h1] at h
  | ok sti =>
    cases h2 : create_time_info req.end_time_ms req.timezone_offset with
    | error e => simp [finishComputation, h1, h2] at h
    | ok eti =>
      cases h3 : calculate_route_info (sortPointsByT data.points.flatten) with
      | error e => simp [finishComputation, h1, h2, h3] at h
      | ok ri =>
        simp only [finishComputation, h1, h2, h3, Except.ok.injEq] at h
        exact ⟨sti, eti, ri, rfl, rfl, rfl, h.symm⟩

/-- Inverting a successful finish_workout call. -/
theorem finish_workout_ok_elim (st : SessionStore) (uid : String)
    (req : WorkoutFinishRequest) (st2 : SessionStore)
    (r : WorkoutSessionResponse)
    (h : finish_workout st uid req = Except.ok (st2, r)) :
    ∃ data start_ms out,
      lookupSession st req.session_id = some data ∧
      readStartMs data = Except.ok start_ms ∧
      finishComputation uid data req start_ms = Except.ok out ∧
      st2 = setSession st req.session_id out.1 ∧ r = out.2 := by
  cases hd : lookupSession st req.session_id with
  | none => simp [finish_workout, hd] at h
  | some data =>
    cases hm : readStartMs data with
    | error e => simp [finish_workout, hd, hm] at h
    | ok m =>
      cases hc : finishComputation uid data req m with
      | error e => simp [finish_workout, hd, hm, hc] at h
      | ok out =>
        simp only [finish_workout, hd, hm, hc, Except.ok.injEq, Prod.mk.injEq] at h
        exact ⟨data, m, out, rfl, hm, hc, h.1.symm, h.2.symm⟩

/-- A successful create_time_info returns exactly the given timestamp. -/
theorem create_time_info_ok_timestamp (t : ℤ) (tz : Option ℚ) (ti : TimeInfo)
    (h : create_time_info t tz = Except.ok ti) :
    ti = { timestamp := some t } := by
  cases tz with
  | none =>
    simp only [create_time_info] at h
    split at h
    · simp only [Except.ok.injEq] at h
      exact h.symm
    · simp at h
  | some off =>
    simp only [create_time_info] at h
    split at h
    · split at h
      · simp only [Except.ok.injEq] at h
        exact h.symm
      · simp at h
    · simp at h

/-- finishParts marks the stored document finished. -/
theorem finishParts_doc_status (uid : String) (data : SessionDoc)
    (req : WorkoutFinishRequest) (m : ℤ) (sti eti : TimeInfo)
    (ri : RouteInfo ℝ) :
    (finishParts uid data req m sti eti ri).1.status = some stFinished := rfl

/-- finishParts writes the given start time dictionary back. -/
theorem finishParts_doc_start (uid : String) (data : SessionDoc)
    (req : WorkoutFinishRequest) (m : ℤ) (sti eti : TimeInfo)
    (ri : RouteInfo ℝ) :
    (finishParts uid data req m sti eti ri).1.start_time = some sti := rfl

/-- finishParts leaves the points subcollection untouched. -/
theorem finishParts_doc_points (uid : String) (data : SessionDoc)
    (req : WorkoutFinishRequest) (m : ℤ) (sti eti : TimeInfo)
    (ri : RouteInfo ℝ) :
    (finishParts uid data req m sti eti ri).1.points = data.points := rfl

/-- The haversine half-angle sine term is unchanged when the two inputs
swap, since sine is odd and the term is squared. -/
theorem sin_half_radians_sub_sq_comm (x y : ℝ) :
    Real.sin (radians (x - y) / 2) ^ 2 = Real.sin (radians (y - x) / 2) ^ 2 := by
  have h : radians (x - y) / 2 = -(radians (y - x) / 2) := by
    unfold radians; ring
  rw [h, Real.sin_neg]
  ring

/-- Claim C9: the haversine distance is symmetric in its two points,
vanishes on identical points, and is always non-negative. -/
theorem haversine_symm_zero_nonneg :
    (∀ lat1 lng1 lat2 lng2 : ℝ,
      _haversine_m lat1 lng1 lat2 lng2 = _haversine_m lat2 lng2 lat1 lng1) ∧
    (∀ lat lng : ℝ, _haversine_m lat lng lat lng = 0) ∧
    (∀ lat1 lng1 lat2 lng2 : ℝ, 0 ≤ _haversine_m lat1 lng1 lat2 lng2) := by
  refine ⟨?_, ?_, ?_⟩
  · intro lat1 lng1 lat2 lng2
    simp only [_haversine_m]
    rw [sin_half_radians_sub_sq_comm lat2 lat1, sin_half_radians_sub_sq_comm lng2 lng1,
      mul_comm (Real.cos (radians lat1)) (Real.cos (radians lat2))]
  · intro lat lng
    simp only [_haversine_m, radians, sub_self, zero_mul, zero_div, Real.sin_zero,
      ne_eq, OfNat.ofNat_ne_zero, not_false_eq_true, zero_pow, mul_zero, add_zero,
      Real.sqrt_zero, Real.arcsin_zero]
  · intro lat1 lng1 lat2 lng2
    simp only [_haversine_m]
    have h1 : 0 ≤ Real.arcsin (Real.sqrt (Real.sin (radians (lat2 - lat1) / 2) ^ 2 +
        Real.cos (radians lat1) * Real.cos (radians lat2) *
          Real.sin (radians (lng2 - lng1) / 2) ^ 2)) :=
      Real.arcsin_nonneg.mpr (Real.sqrt_nonneg _)
    have h2 : (0 : ℝ) ≤ 6371000.0 := by norm_num
    exact mul_nonneg h2 (mul_nonneg (by norm_num) h1)

/-- The accumulation loop of finish_workout equals the sum of haversine
distances over consecutive pairs. -/
theorem totalDistAux_eq_pairSum :
    ∀ l : List StoredPoint,
      totalDistAux l =
        ((l.zip l.tail).map fun ab => _haversine_m ab.1.lat ab.1.lng ab.2.lat ab.2.lng).sum
  | [] => by simp [totalDistAux]
  | [a] => by simp [totalDistAux]
  | a :: b :: rest => by
    have ih := totalDistAux_eq_pairSum (b :: rest)
    simp only [totalDistAux, ih, List.tail_cons, List.zip_cons_cons, List.map_cons,
      List.sum_cons]

/-- Claim C6: the total distance computed at finish equals the sum of
pairwise haversine distances over consecutive pairs of the list sorted
ascending by timestamp (the sort happening before summation, and the
sorted list being a permutation of the input), and is 0 for an empty or
single-point input. -/
theorem finish_total_distance_spec (pts : List StoredPoint) :
    finishTotalDistance pts = specTotalDistance pts ∧
    List.Sorted tLE (sortPointsByT pts) ∧
    (sortPointsByT pts).Perm pts ∧
    (pts.length ≤ 1 → finishTotalDistance pts = 0) := by
  refine ⟨?_, List.sorted_insertionSort tLE pts, List.perm_insertionSort tLE pts, ?_⟩
  · simp only [finishTotalDistance, specTotalDistance]
    exact totalDistAux_eq_pairSum (sortPointsByT pts)
  · intro hlen
    have hlen2 : (sortPointsByT pts).length ≤ 1 := by
      unfold sortPointsByT
      rw [(List.perm_insertionSort tLE pts).length_eq]
      exact hlen
    unfold finishTotalDistance
    rcases hs : sortPointsByT pts with _ | ⟨a, _ | ⟨b, rest⟩⟩
    · simp [totalDistAux]
    · simp [totalDistAux]
    · rw [hs] at hlen2
      simp at hlen2

/-- A concrete single point. -/
def witnessPoint : StoredPoint := { lat := 0, lng := 0, t_ms := 0, altitude := none }

/-- Witness for claim C6 at a concrete one-point list. -/
theorem finish_total_distance_spec_witness :
    ([witnessPoint].length ≤ 1) ∧ finishTotalDistance [witnessPoint] = 0 :=
  ⟨by simp, (finish_total_distance_spec [witnessPoint]).2.2.2 (by simp)⟩

/-- Workout type tags appearing in the type factor dictionary. -/
def wtWalk : String := "walk"

/-- Workout type tag cycle. -/
def wtCycle : String := "cycle"

/-- Workout type tag swim. -/
def wtSwim : String := "swim"

/-- Workout type tag gym. -/
def wtGym : String := "gym"

/-- Workout type tag other. -/
def wtOther : String := "other"

/-- Claim C5 (amended): the zones returned by analyze_workout_intensity
are the 10 percent, 80 percent, 10 percent split of the duration, with the
warmup and cooldown zones floor-clamped to a minimum of 60 seconds; the
active zone is NOT clamped (it is the bare int(duration * 0.8)). -/
theorem intensity_zones (p d : ℚ) :
    (analyze_workout_intensity (some p) d).zones =
      { warmup := max 60 (pyInt (d * 0.1))
        active := pyInt (d * 0.8)
        cooldown := max 60 (pyInt (d * 0.1)) } ∧
    60 ≤ (analyze_workout_intensity (some p) d).zones.warmup ∧
    60 ≤ (analyze_workout_intensity (some p) d).zones.cooldown :=
  ⟨rfl, le_max_left _ _, le_max_left _ _⟩

/-- Claim C5 counterexample: at duration 50 the active zone is
int(50 * 0.8) = 40, which is below the claimed 60-second floor, so the
active zone is not floor-clamped to 60. -/
theorem intensity_zones_cex :
    (analyze_workout_intensity (some (10 : ℚ)) 50).zones.active = 40 ∧
    ¬ 60 ≤ (analyze_workout_intensity (some (10 : ℚ)) 50).zones.active := by
  have h : (analyze_workout_intensity (some (10 : ℚ)) 50).zones.active = 40 := by
    show pyInt ((50 : ℚ) * 0.8) = 40
    norm_num [pyInt]
  exact ⟨h, by rw [h]; norm_num⟩

/-- For a positive pace the pace factor is the bare 5-bucket step
function. -/
theorem pace_factor_some_pos {α : Type} [LinearOrderedField α] [FloorRing α]
    (p : α) (hp : 0 < p) :
    pace_factor (some p) =
      (if p < 5 then 1.3 else if p < 6 then 1.2 else if p < 7 then 1.1
       else if p < 8 then 1 else 0.9 : α) := by
  unfold pace_factor
  dsimp only
  rw [if_neg (not_le.mpr hp)]

/-- Claim C7: for positive distance, weight and pace the calories value
computed by calculate_calories_burned is
distance * weight * paceFactor * typeFactor with the claimed 5-bucket pace
step function and the claimed per-type multipliers (default 1 for an
unrecognized type), and the burned calories are 0 when the distance is not
positive; the burned field stores the value rounded to one decimal. -/
theorem calories_formula (d w p : ℚ) (ty : String) :
    (d ≤ 0 → (calculate_calories_burned d w ty (some p)).burned = 0) ∧
    (0 < d → 0 < w → 0 < p →
      caloriesValue d w ty (some p) =
        d * w *
          (if p < 5 then 1.3 else if p < 6 then 1.2 else if p < 7 then 1.1
           else if p < 8 then 1 else 0.9) *
          type_factors ty ∧
      (calculate_calories_burned d w ty (some p)).burned =
        pyRound 1 (caloriesValue d w ty (some p))) ∧
    (type_factors wtRun : ℚ) = 1 ∧
    (type_factors wtWalk : ℚ) = 0.6 ∧
    (type_factors wtCycle : ℚ) = 0.4 ∧
    (type_factors wtSwim : ℚ) = 1.5 ∧
    (type_factors wtGym : ℚ) = 0.8 ∧
    (type_factors wtOther : ℚ) = 0.7 ∧
    (ty ∉ [wtRun, wtWalk, wtCycle, wtSwim, wtGym, wtOther] →
      (type_factors ty : ℚ) = 1) := by
  refine ⟨?_, ?_, ?_, ?_, ?_, ?_, ?_, ?_, ?_⟩
  · intro hd
    unfold calculate_calories_burned
    rw [if_pos (Or.inl hd)]
  · intro hd hw hp
    constructor
    · unfold caloriesValue
      rw [pace_factor_some_pos p hp]
      ring
    · unfold calculate_calories_burned
      rw [if_neg]
      push_neg
      exact ⟨hd, hw⟩
  · unfold type_factors wtRun
    rw [if_pos rfl]
  · unfold type_factors wtWalk
    rw [if_neg (by decide), if_pos rfl]
  · unfold type_factors wtCycle
    rw [if_neg (by decide), if_neg (by decide), if_pos rfl]
  · unfold type_factors wtSwim
    rw [if_neg (by decide), if_neg (by decide), if_neg (by decide), if_pos rfl]
  · unfold type_factors wtGym
    rw [if_neg (by decide), if_neg (by decide), if_neg (by decide), if_neg (by decide),
      if_pos rfl]
  · unfold type_factors wtOther
    rw [if_neg (by decide), if_neg (by decide), if_neg (by decide), if_neg (by decide),
      if_neg (by decide), if_pos rfl]
  · intro h
    simp only [List.mem_cons, List.not_mem_nil, or_false, not_or, wtRun, wtWalk, wtCycle,
      wtSwim, wtGym, wtOther] at h
    obtain ⟨h1, h2, h3, h4, h5, h6⟩ := h
    simp [type_factors, h1, h2, h3, h4, h5, h6]

/-- Witness for claim C7 at distance 2 km, weight 70 kg, pace 5.5 min/km,
type swim: pace bucket 1.2, type factor 1.5. -/
theorem calories_formula_witness :
    (0 : ℚ) < 2 ∧ (0 : ℚ) < 70 ∧ (0 : ℚ) < 5.5 ∧
    caloriesValue 2 70 wtSwim (some (5.5 : ℚ)) = 2 * 70 * 1.2 * 1.5 := by
  refine ⟨by norm_num, by norm_num, by norm_num, ?_⟩
  have h := ((calories_formula 2 70 (5.5 : ℚ) wtSwim).2.1
    (by norm_num) (by norm_num) (by norm_num)).1
  rw [h, if_neg (by norm_num), if_pos (by norm_num)]
  unfold type_factors wtSwim
  rw [if_neg (by decide), if_neg (by decide), if_neg (by decide), if_pos rfl]

/-- Claim C8: when distance or duration is not positive all four pace
fields are 0 (no error); otherwise min_per_km is (duration/60)/(distance/1000),
min_per_mile is the mirror over miles, the speed fields are the
reciprocal-scaled values, and the returned fields are these values rounded
to two decimals. -/
theorem pace_info_spec (m s : ℚ) :
    ((m ≤ 0 ∨ s ≤ 0) → calculate_pace_info m s =
      { min_per_km := 0, min_per_mile := 0, km_per_hour := 0, mph := 0 }) ∧
    (0 < m → 0 < s →
      paceMinPerKm m s = (s / 60) / (m / 1000) ∧
      paceMinPerMile m s = (s / 60) / (m / 1609.34) ∧
      paceKmPerHour m s = 60 / paceMinPerKm m s ∧
      paceMph m s = 60 / paceMinPerMile m s ∧
      calculate_pace_info m s =
        { min_per_km := pyRound 2 (paceMinPerKm m s)
          min_per_mile := pyRound 2 (paceMinPerMile m s)
          km_per_hour := pyRound 2 (paceKmPerHour m s)
          mph := pyRound 2 (paceMph m s) }) := by
  constructor
  · intro h
    unfold calculate_pace_info
    rw [if_pos h]
  · intro hm hs
    refine ⟨rfl, rfl, ?_, ?_, ?_⟩
    · unfold paceKmPerHour paceMinPerKm
      field_simp
      ring
    · unfold paceMph paceMinPerMile
      field_simp
      ring
    · unfold calculate_pace_info
      rw [if_neg]
      push_neg
      exact ⟨hm, hs⟩

/-- Witness for claim C8: zero distance with positive duration yields the
all-zero pace record. -/
theorem pace_info_spec_witness :
    ((0 : ℚ) ≤ 0 ∨ (5 : ℚ) ≤ 0) ∧
    calculate_pace_info (0 : ℚ) 5 =
      { min_per_km := 0, min_per_mile := 0, km_per_hour := 0, mph := 0 } :=
  ⟨Or.inl le_rfl, (pace_info_spec 0 5).1 (Or.inl le_rfl)⟩

/-- Claim C2: status transitions only along
active to paused to active ... to finished: pause succeeds exactly from
active (yielding paused) and otherwise fails with InvalidState; resume
succeeds only from paused (yielding active), fails with InvalidState from
any other status and with CorruptState when the pending pause start is
missing; finish succeeds exactly from a non-finished status (yielding the
terminal finished) and fails with InvalidState on a finished session; no
operation leaves finished. -/
theorem statemachine_transitions (s : SMSession) (t : ℤ) :
    ((∃ s2, smPause s t = Except.ok s2) ↔ s.status = SMStatus.active) ∧
    (∀ s2, smPause s t = Except.ok s2 → s2.status = SMStatus.paused) ∧
    (s.status ≠ SMStatus.active → smPause s t = Except.error SMError.invalidState) ∧
    ((∃ s2, smResume s t = Except.ok s2) → s.status = SMStatus.paused) ∧
    (s.status ≠ SMStatus.paused → smResume s t = Except.error SMError.invalidState) ∧
    (s.status = SMStatus.paused → s.pendingPauseStart = none →
      smResume s t = Except.error SMError.corruptState) ∧
    (∀ s2, smResume s t = Except.ok s2 → s2.status = SMStatus.active) ∧
    ((∃ s2, smFinish s = Except.ok s2) ↔ s.status ≠ SMStatus.finished) ∧
    (∀ s2, smFinish s = Except.ok s2 → s2.status = SMStatus.finished) ∧
    (s.status = SMStatus.finished →
      smPause s t = Except.error SMError.invalidState ∧
      smResume s t = Except.error SMError.invalidState ∧
      smFinish s = Except.error SMError.invalidState) := by
  obtain ⟨st0, pp, ps⟩ := s
  rcases st0 <;> rcases pp with _ | p <;>
    simp [smPause, smResume, smFinish]

/-- A concrete active session for the state machine. -/
def smActiveSession : SMSession :=
  { status := SMStatus.active, pendingPauseStart := none, pauses := [] }

/-- Witness for claim C2: pausing a concrete active session succeeds. -/
theorem statemachine_transitions_witness :
    ∃ s2, smPause smActiveSession 5 = Except.ok s2 :=
  (statemachine_transitions smActiveSession 5).1.mpr rfl

/-- Claim C10: add_points with an empty points list returns ok with 0
added for every store, without consulting the store, in particular also
when the session id does not exist. -/
theorem addPoints_empty (st : SessionStore) (req : WorkoutAddPointsRequest)
    (h : req.points = []) :
    add_points st req = Except.ok (st, { ok := true, added := 0 }) ∧
    (lookupSession st req.session_id = none →
      add_points st req = Except.ok (st, { ok := true, added := 0 })) := by
  have he : req.points.isEmpty = true := by rw [h]; rfl
  have main : add_points st req = Except.ok (st, { ok := true, added := 0 }) := by
    unfold add_points
    rw [if_pos he]
  exact ⟨main, fun _ => main⟩

/-- A session id absent from the empty store. -/
def sidMissing : String := "missing"

/-- An add-points request with an empty batch for an unknown session. -/
def emptyAddReq : WorkoutAddPointsRequest := { session_id := sidMissing, points := [] }

/-- Witness for claim C10: the empty batch succeeds on the empty store
where the session does not exist. -/
theorem addPoints_empty_witness :
    add_points [] emptyAddReq = Except.ok ([], { ok := true, added := 0 }) :=
  (addPoints_empty [] emptyAddReq rfl).1

/-- A concrete session id. -/
def sid1 : String := "s1"

/-- A concrete user id. -/
def uid1 : String := "u1"

/-- A concrete finish request for sid1 at end time 2000 ms. -/
def finReq : WorkoutFinishRequest :=
  { session_id := sid1, end_time_ms := 2000, timezone_offset := none }

/-- A concrete session document that is already finished, with start
timestamp 1000 ms and no points. -/
def finishedDoc : SessionDoc :=
  { workout_type := some wtRun
    status := some stFinished
    start_time := some { timestamp := some 1000 }
    start_time_ms := none
    end_time_ms := some 2000
    points := []
    points_count := some 0
    distance := none
    duration := none
    pace := none
    calories := none
    route := none
    analysis := none
    end_time := none }

/-- A concrete active session document with start timestamp 1000 ms and
no points. -/
def activeDoc : SessionDoc :=
  { finishedDoc with status := some stActive, end_time_ms := none }

/-- The route info of an empty point list. -/
def routeEmpty : RouteInfo ℝ :=
  { points_count := 0, total_elevation_gain := 0
    total_elevation_loss := 0, elevation_profile := [] }

/-- Timestamp 1000 ms is within the datetime range at offset 0. -/
theorem fromtimestampOK_1000 : fromtimestampOK 1000 0 := by
  norm_num [fromtimestampOK, datetimeMinEpochS, datetimeMaxEpochS]

/-- Timestamp 2000 ms is within the datetime range at offset 0. -/
theorem fromtimestampOK_2000 : fromtimestampOK 2000 0 := by
  norm_num [fromtimestampOK, datetimeMinEpochS, datetimeMaxEpochS]

/-- Finishing a one-session store whose document has no points and start
timestamp 1000 succeeds concretely under finReq. -/
theorem finish_simpleDoc_ok (d : SessionDoc)
    (hpts : d.points = [])
    (hst : d.start_time = some { timestamp := some 1000 }) :
    finish_workout [(sid1, d)] uid1 finReq =
      Except.ok (setSession [(sid1, d)] finReq.session_id
          (finishParts uid1 d finReq 1000 { timestamp := some 1000 }
            { timestamp := some 2000 } routeEmpty).1,
        (finishParts uid1 d finReq 1000 { timestamp := some 1000 }
          { timestamp := some 2000 } routeEmpty).2) := by
  have h1 : create_time_info 1000 finReq.timezone_offset =
      Except.ok { timestamp := some 1000 } := by
    show create_time_info 1000 none = _
    simp only [create_time_info]
    rw [if_pos fromtimestampOK_1000]
  have h2 : create_time_info finReq.end_time_ms finReq.timezone_offset =
      Except.ok { timestamp := some 2000 } := by
    show create_time_info 2000 none = _
    simp only [create_time_info]
    rw [if_pos fromtimestampOK_2000]
  have h3 : calculate_route_info (sortPointsByT d.points.flatten) =
      Except.ok routeEmpty := by
    rw [hpts]
    rfl
  have hd : lookupSession [(sid1, d)] finReq.session_id = some d := by
    simp [lookupSession, finReq]
  have hm : readStartMs d = Except.ok 1000 := by
    simp [readStartMs, hst]
  exact finish_workout_ok _ _ _ _ _ _ hd hm
    (finishComputation_ok_intro _ _ _ _ _ _ _ h1 h2 h3)

/-- Claim C1 counterexample: finish_workout succeeds on a session whose
status is already finished (the code never consults the status and there
is no invalid-state error), so the second of two finish calls does not
fail. -/
theorem finish_already_finished_cex :
    finishedDoc.status = some stFinished ∧
    ∃ out, finish_workout [(sid1, finishedDoc)] uid1 finReq = Except.ok out :=
  ⟨rfl, ⟨_, finish_simpleDoc_ok finishedDoc rfl rfl⟩⟩

/-- Claim C1 (amended): finish_workout never checks the session status and
has no invalid-state error: whenever a finish call succeeds, the response
and the stored document are marked finished, and a second finish call on
the same id against the resulting store succeeds again (the status having
become finished does not make it fail). -/
theorem finish_twice_succeeds (st : SessionStore) (uid : String)
    (req : WorkoutFinishRequest) (st2 : SessionStore)
    (r : WorkoutSessionResponse)
    (h : finish_workout st uid req = Except.ok (st2, r)) :
    r.status = "finished" ∧
    (∃ d2, lookupSession st2 req.session_id = some d2 ∧
      d2.status = some stFinished) ∧
    ∃ st3 r2, finish_workout st2 uid req = Except.ok (st3, r2) ∧
      r2.status = "finished" := by
  obtain ⟨data, m, out, hd, hm, hc, hst2, hr⟩ := finish_workout_ok_elim _ _ _ _ _ h
  obtain ⟨sti, eti, ri, h1, h2, h3, hout⟩ := finishComputation_ok_elim _ _ _ _ _ hc
  subst hst2
  subst hr
  subst hout
  have hlook : lookupSession (setSession st req.session_id
      (finishParts uid data req m sti eti ri).1) req.session_id =
      some (finishParts uid data req m sti eti ri).1 := by
    rw [lookupSession_setSession, hd]
    rfl
  refine ⟨rfl, ⟨_, hlook, rfl⟩, ?_⟩
  have hne := readStartMs_ok_ne_zero data m hm
  have hsti := create_time_info_ok_timestamp _ _ _ h1
  have hm2 : readStartMs (finishParts uid data req m sti eti ri).1 =
      Except.ok m := by
    simp [readStartMs, finishParts_doc_start, hsti, hne]
  have h3b : calculate_route_info
      (sortPointsByT (finishParts uid data req m sti eti ri).1.points.flatten) =
      Except.ok ri := by
    rw [finishParts_doc_points]
    exact h3
  exact ⟨_, _, finish_workout_ok _ _ _ _ _ _ hlook hm2
    (finishComputation_ok_intro _ _ _ _ _ _ _ h1 h2 h3b), rfl⟩

/-- Witness for claim C1 at a concrete active session: the first call
succeeds concretely and the theorem gives the second. -/
theorem finish_twice_succeeds_witness :
    ∃ st2 r, finish_workout [(sid1, activeDoc)] uid1 finReq = Except.ok (st2, r) ∧
      r.status = "finished" ∧
      (∃ d2, lookupSession st2 finReq.session_id = some d2 ∧
        d2.status = some stFinished) ∧
      ∃ st3 r2, finish_workout st2 uid1 finReq = Except.ok (st3, r2) ∧
        r2.status = "finished" := by
  have h := finish_simpleDoc_ok activeDoc rfl rfl
  exact ⟨_, _, h, finish_twice_succeeds _ _ _ _ _ h⟩

/-- Claim C3 (amended): on a successful finish the stored duration is
derived from finishDuration, which is max(0, (end - start)/1000): no pause
durations are subtracted because the code records no pause intervals; the
duration is always non-negative, and it equals (end - start)/1000 (hence
is bounded by it) whenever the end time is not before the start time.
When the end time is before the start time the clamp to 0 makes the
duration exceed the negative span, so the claimed upper bound fails there. -/
theorem finish_duration_clamped (st : SessionStore) (uid : String)
    (req : WorkoutFinishRequest) (st2 : SessionStore)
    (r : WorkoutSessionResponse) (data : SessionDoc) (start_ms : ℤ)
    (hd : lookupSession st req.session_id = some data)
    (hm : readStartMs data = Except.ok start_ms)
    (h : finish_workout st uid req = Except.ok (st2, r)) :
    r.duration =
      some (calculate_duration_info (finishDuration req.end_time_ms start_ms)) ∧
    finishDuration req.end_time_ms start_ms =
      max 0 (((req.end_time_ms - start_ms : ℤ) : ℝ) / 1000) ∧
    0 ≤ finishDuration req.end_time_ms start_ms ∧
    (start_ms ≤ req.end_time_ms →
      finishDuration req.end_time_ms start_ms =
        ((req.end_time_ms - start_ms : ℤ) : ℝ) / 1000) := by
  obtain ⟨data2, m2, out, hd2, hm2, hc, hst2, hr⟩ := finish_workout_ok_elim _ _ _ _ _ h
  rw [hd] at hd2
  injection hd2 with hdd
  subst hdd
  rw [hm] at hm2
  injection hm2 with hmm
  subst hmm
  obtain ⟨sti, eti, ri, h1, h2, h3, hout⟩ := finishComputation_ok_elim _ _ _ _ _ hc
  subst hr
  subst hout
  refine ⟨rfl, rfl, le_max_left _ _, ?_⟩
  intro hle
  unfold finishDuration
  rw [max_eq_right]
  have h0 : (0 : ℝ) ≤ ((req.end_time_ms - start_ms : ℤ) : ℝ) := by
    exact_mod_cast sub_nonneg.mpr hle
  exact div_nonneg h0 (by norm_num)

/-- Claim C3 counterexample: with end time 0 ms and start time 1000 ms the
computed duration is clamped to 0, which is not bounded by the (negative)
difference end - start, so the claimed inequality fails when the end time
precedes the start time. -/
theorem finish_duration_cex :
    finishDuration 0 1000 = 0 ∧
    ¬ finishDuration 0 1000 ≤ ((0 - 1000 : ℤ) : ℝ) / 1000 := by
  have h : finishDuration 0 1000 = 0 := by
    unfold finishDuration
    rw [max_eq_left (by norm_num)]
  refine ⟨h, ?_⟩
  rw [h]
  norm_num

/-- Witness for claim C3 at a concrete active session finished at 2000 ms
after a 1000 ms start. -/
theorem finish_duration_clamped_witness :
    lookupSession [(sid1, activeDoc)] finReq.session_id = some activeDoc ∧
    readStartMs activeDoc = Except.ok 1000 ∧
    ∃ st2 r, finish_workout [(sid1, activeDoc)] uid1 finReq = Except.ok (st2, r) ∧
      (r.duration =
        some (calculate_duration_info (finishDuration finReq.end_time_ms 1000)) ∧
      finishDuration finReq.end_time_ms 1000 =
        max 0 (((finReq.end_time_ms - 1000 : ℤ) : ℝ) / 1000) ∧
      0 ≤ finishDuration finReq.end_time_ms 1000 ∧
      (1000 ≤ finReq.end_time_ms →
        finishDuration finReq.end_time_ms 1000 =
          ((finReq.end_time_ms - 1000 : ℤ) : ℝ) / 1000)) := by
  have hd : lookupSession [(sid1, activeDoc)] finReq.session_id = some activeDoc := by
    simp [lookupSession, finReq]
  have h := finish_simpleDoc_ok activeDoc rfl rfl
  exact ⟨hd, rfl, _, _, h, finish_duration_clamped _ _ _ _ _ _ _ hd rfl h⟩

/-- Claim C4 (amended): the finish request carries no weight argument (its
fields are only session_id, end_time_ms and timezone_offset), and the
calorie computation at finish always uses the fixed default body weight of
70.0 kg: every successful finish reports calories with user_weight 70. -/
theorem finish_fixed_weight (st : SessionStore) (uid : String)
    (req : WorkoutFinishRequest) (st2 : SessionStore)
    (r : WorkoutSessionResponse)
    (h : finish_workout st uid req = Except.ok (st2, r)) :
    ∃ c, r.calories = some c ∧ c.user_weight = 70 := by
  obtain ⟨data, m, out, hd, hm, hc, hst2, hr⟩ := finish_workout_ok_elim _ _ _ _ _ h
  obtain ⟨sti, eti, ri, h1, h2, h3, hout⟩ := finishComputation_ok_elim _ _ _ _ _ hc
  subst hr
  subst hout
  refine ⟨_, rfl, ?_⟩
  rw [calories_user_weight]
  norm_num

/-- Claim C4 counterexample: finishing a concrete session reports a calorie
record with user_weight 70 even though the request supplied no weight at
all, so the weight used is the hard-coded 70.0, not a caller-supplied
value. -/
theorem finish_fixed_weight_cex :
    ∃ st2 r, finish_workout [(sid1, activeDoc)] uid1 finReq = Except.ok (st2, r) ∧
      ∃ c, r.calories = some c ∧ c.user_weight = 70 := by
  refine ⟨_, _, finish_simpleDoc_ok activeDoc rfl rfl, _, rfl, ?_⟩
  rw [calories_user_weight]
  norm_num

/-- Witness for claim C4: the concrete finish succeeds and the theorem
yields the fixed 70 kg weight. -/
theorem finish_fixed_weight_witness :
    ∃ st2 r, finish_workout [(sid1, activeDoc)] uid1 finReq = Except.ok (st2, r) ∧
      (∃ c, r.calories = some c ∧ c.user_weight = 70) := by
  have h := finish_simpleDoc_ok activeDoc rfl rfl
  exact ⟨_, _, h, finish_fixed_weight _ _ _ _ _ h⟩
